import Mathlib

/-!
Verification development for the web-automation repository
(`complete_automation.py`).  The definitions below are a shallow embedding
of the pure logic of `CompleteAutomationTool`: search-query extraction
(including the exact backtracking semantics of the four `re.search`
patterns), pattern-based planning, the smart selector catalog, the step
executor over an oracle of fallible browser primitives, and the browser
lifecycle of `execute_automation`.
-/

namespace WebAuto

/-! ### Basic character/string helpers mirroring Python semantics -/

/-- Whitespace for Python `str.split`, `str.strip` and regex `\s`
(ASCII portion, which is what every analysed input uses). -/
def pyIsSpace (c : Char) : Bool :=
  c == ' ' || c == '\t' || c == '\n' || c == '\r' ||
  c == Char.ofNat 11 || c == Char.ofNat 12 ||
  (28 ≤ c.toNat && c.toNat ≤ 31) || c.toNat == 133 || c.toNat == 160

/-- The two quote characters of the character class `["\']` in the
extraction patterns. -/
def isQuote (c : Char) : Bool := c == '"' || c == Char.ofNat 39

/-- Python-style lowercase of a string (`str.lower`). -/
def pyLower (s : String) : String := String.mk (s.data.map Char.toLower)

/-- Boolean list-prefix test. -/
def listPrefix : List Char → List Char → Bool
  | [], _ => true
  | _ :: _, [] => false
  | a :: as, b :: bs => a == b && listPrefix as bs

/-- Boolean contiguous-sublist test, mirroring Python `pat in hay`. -/
def listInfix (pat : List Char) : List Char → Bool
  | [] => pat.isEmpty
  | c :: rest => listPrefix pat (c :: rest) || listInfix pat rest

/-- Python substring containment `pat in hay` on strings. -/
def strIn (pat hay : String) : Bool := listInfix pat.data hay.data

/-- Helper for `pySplit`: accumulates the current word reversed. -/
def pySplitAux (cur : List Char) : List Char → List (List Char)
  | [] => if cur.isEmpty then [] else [cur.reverse]
  | c :: rest =>
    if pyIsSpace c then
      if cur.isEmpty then pySplitAux [] rest
      else cur.reverse :: pySplitAux [] rest
    else pySplitAux (c :: cur) rest

/-- Python `str.split()` with no argument: split on whitespace runs,
discarding empty words. -/
def pySplit (cs : List Char) : List (List Char) := pySplitAux [] cs

/-- Python `str.strip()`: drop whitespace from both ends. -/
def pyStrip (cs : List Char) : List Char :=
  ((cs.dropWhile pyIsSpace).reverse.dropWhile pyIsSpace).reverse

/-- Python `' '.join`: interleave single spaces between words. -/
def joinSp : List (List Char) → List Char
  | [] => []
  | [w] => w
  | w :: ws => w ++ ' ' :: joinSp ws

/-- Word membership in a word list (`w in list_of_words`). -/
def memW (w : List Char) (l : List (List Char)) : Bool := l.any (fun x => x == w)

/-- Python `w.endswith(".com")`. -/
def endsWithCom (w : List Char) : Bool := listPrefix ".com".data.reverse w.reverse

/-! ### The extraction regex

Each pattern of `_extract_search_query` has the shape
`KW\s+["\']?([^"\']+?)["\']?(?:\s*(?:,|and|then|\.|play|click|$))` for a
keyword `KW`.  The functions below implement exactly the backtracking
search of Python `re.search` for this shape: leftmost start position,
greedy `\s+`, greedy optional opening quote, lazy capture group, and an
existential check for closing quote, `\s*` and the delimiter
alternation (whose internal choice order cannot affect the group). -/

/-- The delimiter alternation `,|and|then|\.|play|click` (the `$`
alternative is the `isEmpty` disjunct of `altMatch`). -/
def altWords : List (List Char) :=
  [",".data, "and".data, "then".data, ".".data, "play".data, "click".data]

/-- Does one alternative of the delimiter alternation match here
(including end of string)? -/
def altMatch (cs : List Char) : Bool :=
  cs.isEmpty || altWords.any (fun w => listPrefix w cs)

/-- Does `\s*(?:,|and|then|\.|play|click|$)` match here? -/
def tailMatch : List Char → Bool
  | [] => true
  | c :: rest => altMatch (c :: rest) || (pyIsSpace c && tailMatch rest)

/-- Does `["\']?\s*(?:,|and|then|\.|play|click|$)` match here? -/
def closeQuoteTail (cs : List Char) : Bool :=
  tailMatch cs ||
    (match cs with
     | c :: rest => isQuote c && tailMatch rest
     | [] => false)

/-- Lazy capture `([^"\']+?)`: grow the group one character at a time
and stop at the first length for which the rest of the pattern
matches.  Returns the captured group. -/
def capGo (acc : List Char) : List Char → Option (List Char)
  | [] => none
  | c :: rest =>
    if isQuote c then none
    else if closeQuoteTail rest then some (acc ++ [c])
    else capGo (acc ++ [c]) rest

/-- Optional opening quote (greedy), then the lazy capture. -/
def afterWsQ : List Char → Option (List Char)
  | [] => none
  | c :: rest => if isQuote c then capGo [] rest else capGo [] (c :: rest)

/-- Greedy continuation of `\s+` with backtracking: consume as much
whitespace as possible first, then retreat. -/
def wsGo : List Char → Option (List Char)
  | [] => afterWsQ []
  | c :: rest =>
    if pyIsSpace c then
      match wsGo rest with
      | some g => some g
      | none => afterWsQ (c :: rest)
    else afterWsQ (c :: rest)

/-- `\s+` (at least one whitespace character) followed by the rest of
the pattern. -/
def wsPlus : List Char → Option (List Char)
  | [] => none
  | c :: rest => if pyIsSpace c then wsGo rest else none

/-- Try the whole pattern anchored at this position. -/
def matchKwAt (kw cs : List Char) : Option (List Char) :=
  if listPrefix kw cs then wsPlus (cs.drop kw.length) else none

/-- `re.search`: try every start position from the left. -/
def reSearch (kw : List Char) : List Char → Option (List Char)
  | [] => none
  | c :: rest =>
    match matchKwAt kw (c :: rest) with
    | some g => some g
    | none => reSearch kw rest

/-- The four patterns of `_extract_search_query`, tried in source
order. -/
def tryPatterns (low : List Char) : Option (List Char) :=
  match reSearch "search for".data low with
  | some g => some g
  | none =>
    match reSearch "find".data low with
    | some g => some g
    | none =>
      match reSearch "look for".data low with
      | some g => some g
      | none => reSearch "about".data low

/-- `stop_words` of the regex branch of `_extract_search_query`. -/
def stopWords6 : List (List Char) :=
  ["and".data, "then".data, "play".data, "click".data, "first".data, "video".data]

/-- `skip_words` of the whole-instruction fallback branch. -/
def skipWords : List (List Char) :=
  ["go".data, "to".data, "navigate".data, "open".data, "visit".data,
   "search".data, "find".data, "look".data, "for".data, "and".data,
   "then".data, "play".data, "click".data, "first".data, "video".data]

/-- Core of `_extract_search_query`, over the lowered character list. -/
def extractQ (low : List Char) : List Char :=
  match tryPatterns low with
  | some g =>
    let q := pyStrip g
    joinSp ((pySplit q).filter (fun w => !(memW (w.map Char.toLower) stopWords6)))
  | none =>
    let meaningful :=
      (pySplit low).filter (fun w => !(memW w skipWords) && !(endsWithCom w))
    if meaningful.isEmpty then "cats".data else joinSp (meaningful.take 5)

/-- `CompleteAutomationTool._extract_search_query`. -/
def extract_search_query (instruction : String) : String :=
  String.mk (extractQ (instruction.data.map Char.toLower))

/-! ### Data model: `ActionType` and `AutomationStep` -/

/-- The `ActionType` enumeration. -/
inductive ActionType where
  | navigate | click | fill | wait | scroll | screenshot | extract_text | hover
deriving DecidableEq

/-- The `AutomationStep` dataclass.  `None` defaults become `none`. -/
structure AutomationStep where
  action : ActionType
  description : String
  target : Option String := none
  value : Option String := none
  selector : Option String := none
  timeout : Nat := 15000
  wait_after : Nat := 1000
  optional : Bool := false
deriving DecidableEq

/-! ### `_create_pattern_plan` -/

/-- `CompleteAutomationTool._create_pattern_plan`. -/
def create_pattern_plan (instruction : String) (url : String) : List AutomationStep :=
  let il := pyLower instruction
  let q := extract_search_query instruction
  if strIn "youtube" il then
    [ { action := .navigate, description := "Navigate to YouTube",
        target := some "https://youtube.com" },
      { action := .wait, description := "Wait for YouTube to load", wait_after := 3000 },
      { action := .fill, description := "Search for \x27" ++ q ++ "\x27",
        target := some "search", value := some q },
      { action := .wait, description := "Wait after typing", wait_after := 1500 },
      { action := .click, description := "Submit search",
        target := some "search_submit", optional := true } ] ++
    (if strIn "play" il && strIn "first" il then
      [ { action := .wait, description := "Wait for search results", wait_after := 3000 },
        { action := .click, description := "Click first video",
          target := some "first_video", optional := true } ]
     else [])
  else if strIn "google" il then
    [ { action := .navigate, description := "Navigate to Google",
        target := some "https://google.com" },
      { action := .wait, description := "Wait for Google to load", wait_after := 2000 },
      { action := .fill, description := "Search for \x27" ++ q ++ "\x27",
        target := some "search", value := some q },
      { action := .wait, description := "Wait after typing", wait_after := 1000 } ]
  else if strIn "amazon" il then
    [ { action := .navigate, description := "Navigate to Amazon",
        target := some "https://amazon.com" },
      { action := .wait, description := "Wait for Amazon to load", wait_after := 2000 },
      { action := .fill, description := "Search for \x27" ++ q ++ "\x27",
        target := some "search", value := some q },
      { action := .wait, description := "Wait after typing", wait_after := 1000 },
      { action := .click, description := "Submit search",
        target := some "search_submit", optional := true } ]
  else if url ≠ "" then
    [ { action := .navigate, description := "Navigate to " ++ url, target := some url },
      { action := .wait, description := "Wait for page to load", wait_after := 3000 } ]
  else
    [ { action := .navigate, description := "Navigate to Google",
        target := some "https://google.com" },
      { action := .wait, description := "Wait for page load", wait_after := 2000 },
      { action := .fill, description := "Search for \x27" ++ q ++ "\x27",
        target := some "search", value := some q } ]

/-! ### `_get_smart_selectors` -/

/-- `CompleteAutomationTool._get_smart_selectors`.  A `None` or empty
target yields no candidates (`if not target: return selectors`). -/
def get_smart_selectors (target : Option String) (action : String) : List String :=
  match target with
  | none => []
  | some t =>
    if t = "" then []
    else
      let tl := pyLower t
      if action = "fill" then
        if strIn "search" tl then
          [ "input[name=\x27search_query\x27]",
            "input[name=\x27q\x27]", "textarea[name=\x27q\x27]", "#APjFqb",
            "input#twotabsearchtextbox", "input[name=\x27field-keywords\x27]",
            "input[type=\x27search\x27]", "input[placeholder*=\x27Search\x27]",
            "#search", ".search-input" ]
        else [ "input[type=\x27text\x27]", "input", "textarea" ]
      else if action = "click" then
        if strIn "search" tl || strIn "submit" tl then
          [ "button#search-icon-legacy", "#search-icon-legacy",
            "input[name=\x27btnK\x27]", "input[value=\x27Google Search\x27]",
            "input#nav-search-submit-button",
            "button[type=\x27submit\x27]", "input[type=\x27submit\x27]",
            "button[aria-label*=\x27Search\x27]" ]
        else if strIn "video" tl || strIn "first" tl then
          [ "a#video-title", "#contents a#video-title:first-of-type",
            ".ytd-video-renderer a:first-of-type",
            "a[href*=\x27/watch\x27]:first-of-type",
            "a:first-of-type", "button:first-of-type" ]
        else [ "button", "a", "input[type=\x27button\x27]" ]
      else []

/-! ### Step executor over an oracle of fallible page primitives

Every Playwright primitive the executor touches is a field of
`PageOracle`; a result `Except.error ()` models the call raising an
exception.  `try/except` blocks of the source are translated
explicitly: an inner `except: continue/pass` becomes a `match` on the
attempt, the outer `except ...: return False` becomes `pyCatchB`. -/

/-- Oracle of page primitives; `.error ()` means the call raised. -/
structure PageOracle where
  pressKey : String → Except Unit Unit
  wait_for_selector : String → Except Unit Unit
  scroll_into_view : String → Except Unit Unit
  clickSel : String → Except Unit Unit
  get_by_text_click : String → Except Unit Unit
  focus : String → Except Unit Unit
  clear : String → Except Unit Unit
  typeText : String → String → Except Unit Unit
  input_value : String → Except Unit String
  goto : String → Except Unit (Option Nat)
  wait_for_load_state : Except Unit Unit
  wheel : Int → Except Unit Unit
  screenshot : Except Unit Unit

/-- `try: body; except: return dflt` around a boolean-returning body. -/
def pyCatchB (x : Except Unit Bool) (dflt : Bool) : Bool :=
  match x with
  | .ok b => b
  | .error _ => dflt

/-- `try: act; return True; except: pass`-style attempt. -/
def tryUnit (x : Except Unit Unit) : Bool :=
  match x with
  | .ok _ => true
  | .error _ => false

/-- URL normalization at the top of `_navigate`. -/
def normUrl (u : String) : String :=
  if u.startsWith "http" then u else "https://" ++ u

/-- Body of `_navigate` (inside its `try`).  A `None` target raises
(`None.startswith`), hence `Except.error`; a raising `goto` propagates
its exception; otherwise the response decides success and the
network-idle wait is attempted best-effort (its own failure is caught
by a fallback sleep and cannot change the outcome). -/
def navigate_body (o : PageOracle) (step : AutomationStep) : Except Unit Bool :=
  match step.target with
  | none => Except.error ()
  | some u =>
    match o.goto (normUrl u) with
    | .error e => .error e
    | .ok (some status) =>
      if status < 400 then
        let _ : Bool := tryUnit o.wait_for_load_state
        Except.ok true
      else Except.ok false
    | .ok none => Except.ok false

/-- `CompleteAutomationTool._navigate`. -/
def navigate (o : PageOracle) (step : AutomationStep) : Bool :=
  pyCatchB (navigate_body o step) false

/-- One candidate attempt of `_smart_click`: wait for the selector,
scroll into view, click. -/
def clickCandidate (o : PageOracle) (sel : String) : Except Unit Unit := do
  o.wait_for_selector sel
  o.scroll_into_view sel
  o.clickSel sel

/-- The candidate loop of `_smart_click`: each failed attempt is caught
and the loop continues with the next candidate. -/
def clickLoop (o : PageOracle) : List String → Bool
  | [] => false
  | sel :: rest => if tryUnit (clickCandidate o sel) then true else clickLoop o rest

/-- Words that trigger the Enter-key fast path of `_smart_click`. -/
def enterWords : List String := ["search", "submit", "enter"]

/-- Body of `_smart_click` (inside its `try`). -/
def smart_click_body (o : PageOracle) (step : AutomationStep) : Except Unit Bool :=
  let enterHit : Bool :=
    match step.target with
    | some t =>
      (!(t == "") && enterWords.any (fun w => strIn w (pyLower t)))
        && tryUnit (o.pressKey "Enter")
    | none => false
  if enterHit then Except.ok true
  else if clickLoop o (get_smart_selectors step.target "click") then Except.ok true
  else
    match step.target with
    | some t =>
      if !(t == "") && tryUnit (o.get_by_text_click t) then Except.ok true
      else Except.ok step.optional
    | none => Except.ok step.optional

/-- `CompleteAutomationTool._smart_click`. -/
def smart_click (o : PageOracle) (step : AutomationStep) : Bool :=
  pyCatchB (smart_click_body o step) false

/-- One candidate attempt of `_smart_fill`: wait, focus, clear, type the
value, read the field back and verify the value is a case-insensitive
substring of the read-back content. -/
def fillCandidate (o : PageOracle) (v sel : String) : Except Unit Bool := do
  o.wait_for_selector sel
  o.focus sel
  o.clear sel
  o.typeText sel v
  let cur ← o.input_value sel
  Except.ok (!(cur == "") && strIn (pyLower v) (pyLower cur))

/-- The candidate loop of `_smart_fill`: only a verified attempt
(`.ok true`) stops the loop; a raised attempt or a failed verification
advances to the next candidate. -/
def fillLoop (o : PageOracle) (v : String) : List String → Bool
  | [] => false
  | sel :: rest =>
    match fillCandidate o v sel with
    | .ok true => true
    | _ => fillLoop o v rest

/-- Body of `_smart_fill` (inside its `try`); `if not step.value:
return False` covers both `None` and the empty string. -/
def smart_fill_body (o : PageOracle) (step : AutomationStep) : Except Unit Bool :=
  match step.value with
  | none => Except.ok false
  | some v =>
    if v = "" then Except.ok false
    else if fillLoop o v (get_smart_selectors step.target "fill") then Except.ok true
    else Except.ok step.optional

/-- `CompleteAutomationTool._smart_fill`. -/
def smart_fill (o : PageOracle) (step : AutomationStep) : Bool :=
  pyCatchB (smart_fill_body o step) false

/-- `CompleteAutomationTool._wait`: the sleep never raises, so the step
always succeeds. -/
def wait_step (_step : AutomationStep) : Bool := true

/-- Python `int(str)` as used by `_scroll`: optional surrounding
whitespace, optional sign, at least one digit. -/
def pyToInt (s : String) : Option Int :=
  let cs := pyStrip s.data
  let core : Option (Bool × List Char) :=
    match cs with
    | '-' :: rest => some (true, rest)
    | '+' :: rest => some (false, rest)
    | _ => some (false, cs)
  match core with
  | some (neg, ds) =>
    if ds.isEmpty || !(ds.all Char.isDigit) then none
    else
      let n : Nat := ds.foldl (fun acc c => acc * 10 + (c.toNat - 48)) 0
      some (if neg then -(n : Int) else (n : Int))
  | none => none

/-- Body of `_scroll` (inside its `try`): a non-empty value is parsed
with `int(...)` (raising on a non-integer) and scrolled by wheel,
otherwise PageDown is pressed. -/
def scroll_body (o : PageOracle) (step : AutomationStep) : Except Unit Bool := do
  match step.value with
  | some v =>
    if v ≠ "" then do
      let n ← match pyToInt v with
              | some n => Except.ok n
              | none => Except.error ()
      o.wheel n
      Except.ok true
    else do
      o.pressKey "PageDown"
      Except.ok true
  | none => do
    o.pressKey "PageDown"
    Except.ok true

/-- `CompleteAutomationTool._scroll`. -/
def scroll_step (o : PageOracle) (step : AutomationStep) : Bool :=
  pyCatchB (scroll_body o step) false

/-- `CompleteAutomationTool._screenshot`. -/
def screenshot_step (o : PageOracle) : Bool :=
  pyCatchB (do o.screenshot; Except.ok true) false

/-- Body of `_execute_step` (inside its `try`): dispatch on the action;
unknown actions (`extract_text`, `hover`) log a warning and return
`False`.  Each dispatched handler already contains its own
`try/except`, so the body itself can never raise — which is exactly
what `execute_step_total` below proves. -/
def execute_step_exc (o : PageOracle) (step : AutomationStep) : Except Unit Bool :=
  match step.action with
  | .navigate => Except.ok (navigate o step)
  | .click => Except.ok (smart_click o step)
  | .fill => Except.ok (smart_fill o step)
  | .wait => Except.ok (wait_step step)
  | .scroll => Except.ok (scroll_step o step)
  | .screenshot => Except.ok (screenshot_step o)
  | .extract_text => Except.ok false
  | .hover => Except.ok false

/-- `CompleteAutomationTool._execute_step`. -/
def execute_step (o : PageOracle) (step : AutomationStep) : Bool :=
  pyCatchB (execute_step_exc o step) false

/-! ### Browser lifecycle of `execute_automation`

`_init_browser` creates, in order: the Playwright instance, the
browser, the context, the page; each stage may raise, and the
attributes assigned before the raise stay set.  The `finally` clause of
`execute_automation` runs `_cleanup_browser`, which closes whichever of
page / context / browser / playwright are set, in that order.  Neither
planning nor the step loop touches these resources (steps only drive
the already-created page).  We record creations and closes as an event
trace and prove balance. -/

/-- The four browser-owned resources. -/
inductive BRes where
  | pw | browser | ctx | page
deriving DecidableEq

/-- Resource lifecycle events. -/
inductive BrEv where
  | create (r : BRes)
  | close (r : BRes)
deriving DecidableEq

/-- Which of the tool's resource attributes are set (non-`None`). -/
structure ToolState where
  pw : Bool
  browser : Bool
  ctx : Bool
  page : Bool
deriving DecidableEq

/-- Where `_init_browser` raises, if anywhere: at `start()`, at
`chromium.launch`, at `new_context`, or at `new_page`. -/
inductive InitOutcome where
  | failStart | failLaunch | failContext | failPage | ok
deriving DecidableEq

/-- Environment of one `execute_automation` call: how browser
initialization goes, whether planning raises, the per-step outcomes
(`none` = the step call raised, caught by the per-step `except`;
`some b` = `_execute_step` returned `b`), and which of the four
close/stop calls of `_cleanup_browser` raise. -/
structure SessionEnv where
  init : InitOutcome
  planRaises : Bool
  steps : List (Option Bool)
  closeRaises : BRes → Bool

/-- `CompleteAutomationTool._init_browser`: returns the attributes set,
the creation events, and whether it raised. -/
def init_browser : InitOutcome → ToolState × List BrEv × Bool
  | .failStart => (⟨false, false, false, false⟩, [], true)
  | .failLaunch => (⟨true, false, false, false⟩, [.create .pw], true)
  | .failContext => (⟨true, true, false, false⟩, [.create .pw, .create .browser], true)
  | .failPage =>
    (⟨true, true, true, false⟩, [.create .pw, .create .browser, .create .ctx], true)
  | .ok =>
    (⟨true, true, true, true⟩,
     [.create .pw, .create .browser, .create .ctx, .create .page], false)

/-- The close sequence of `_cleanup_browser`: the attributes are
visited in order and each set one gets a close call, but all four
calls sit inside ONE `try/except`, so the first close that raises is
caught (and only logged) and every remaining close is skipped — those
resources stay open.  A close event is emitted only for a close call
that completes. -/
def closeSeq (cr : BRes → Bool) : List (Bool × BRes) → List BrEv
  | [] => []
  | (set, r) :: rest =>
    if set then
      if cr r then []
      else .close r :: closeSeq cr rest
    else closeSeq cr rest

/-- `CompleteAutomationTool._cleanup_browser`: close page, context,
browser, playwright — each only if set — under a single `try/except`
(`cr` says which close/stop calls raise). -/
def cleanup_browser (cr : BRes → Bool) (s : ToolState) : List BrEv :=
  closeSeq cr [(s.page, .page), (s.ctx, .ctx), (s.browser, .browser), (s.pw, .pw)]

/-- The step loop of `execute_automation` creates and closes no
browser resource: every handler only drives the existing page, and a
raising step is caught by the loop's own `except ...: continue`. -/
def step_loop_events : List (Option Bool) → List BrEv
  | [] => []
  | _ :: rest => step_loop_events rest

/-- Resource-event trace of one `execute_automation(instruction, url)`
call: `try: init; plan; loop ... except: ... finally: cleanup`. -/
def execute_automation_events (e : SessionEnv) : List BrEv :=
  match init_browser e.init with
  | (s, evs, true) => evs ++ cleanup_browser e.closeRaises s
  | (s, evs, false) =>
    if e.planRaises then evs ++ cleanup_browser e.closeRaises s
    else evs ++ step_loop_events e.steps ++ cleanup_browser e.closeRaises s

/-- Occurrence count of an event in a trace. -/
def countEv (ev : BrEv) : List BrEv → Nat
  | [] => 0
  | x :: rest => (if x = ev then 1 else 0) + countEv ev rest

/-! ### Concrete oracles and steps used by witnesses -/

/-- A page on which every primitive raises. -/
def oracleFail : PageOracle where
  pressKey := fun _ => .error ()
  wait_for_selector := fun _ => .error ()
  scroll_into_view := fun _ => .error ()
  clickSel := fun _ => .error ()
  get_by_text_click := fun _ => .error ()
  focus := fun _ => .error ()
  clear := fun _ => .error ()
  typeText := fun _ _ => .error ()
  input_value := fun _ => .error ()
  goto := fun _ => .error ()
  wait_for_load_state := .error ()
  wheel := fun _ => .error ()
  screenshot := .error ()

/-- A healthy page: every primitive succeeds, navigation returns
status 200, and fields read back as "pizza". -/
def oracleOk : PageOracle where
  pressKey := fun _ => .ok ()
  wait_for_selector := fun _ => .ok ()
  scroll_into_view := fun _ => .ok ()
  clickSel := fun _ => .ok ()
  get_by_text_click := fun _ => .ok ()
  focus := fun _ => .ok ()
  clear := fun _ => .ok ()
  typeText := fun _ _ => .ok ()
  input_value := fun _ => .ok "pizza"
  goto := fun _ => .ok (some 200)
  wait_for_load_state := .ok ()
  wheel := fun _ => .ok ()
  screenshot := .ok ()

/-- A page whose fields silently reject input: typing succeeds but the
read-back content never contains the typed value. -/
def oracleReject : PageOracle :=
  { oracleOk with input_value := fun _ => .ok "nope" }

/-- An optional click step whose target matches no element. -/
def stepClickDemo : AutomationStep :=
  { action := .click, description := "demo click", target := some "menu",
    optional := true }

/-- An optional fill step. -/
def stepFillDemoOpt : AutomationStep :=
  { action := .fill, description := "demo fill", target := some "search",
    value := some "pizza", optional := true }

/-- A mandatory fill step. -/
def stepFillDemo : AutomationStep :=
  { action := .fill, description := "demo fill", target := some "search",
    value := some "pizza", optional := false }

/-- A navigate step with a scheme-less target. -/
def stepNavDemo : AutomationStep :=
  { action := .navigate, description := "demo nav", target := some "example.com" }

/-- A run in which initialization, planning and both steps complete or
fail harmlessly, and no close call raises. -/
def envCleanRun : SessionEnv :=
  { init := .ok, planRaises := false, steps := [some true, none],
    closeRaises := fun _ => false }

/-- A run in which everything up to teardown succeeds but
`page.close()` raises inside `_cleanup_browser`: the single
`try/except` catches it and the context/browser/playwright closes are
never executed. -/
def envCloseCrash : SessionEnv :=
  { init := .ok, planRaises := false, steps := [],
    closeRaises := fun r => match r with | .page => true | _ => false }

/-! ## Theorems -/

/-- Counterexample to claim C1: when `page.close()` raises during
teardown, `_cleanup_browser`'s single `try/except` (lines 604-615)
catches it and skips the remaining closes, so the context — created
exactly once during the call — is closed zero times: an open handle
remains after the call returns. -/
theorem teardown_leak_on_raising_close :
    countEv (.create .ctx) (execute_automation_events envCloseCrash) = 1 ∧
    countEv (.close .ctx) (execute_automation_events envCloseCrash) = 0 := by
  decide

/-- Claim C1 (amended): for every `execute_automation` call — whatever
happens in browser initialization, planning or step execution —
provided none of the four close/stop calls of `_cleanup_browser`
itself raises, every browser/context/page/playwright resource created
during the call is closed exactly once before the call returns (each
resource's close count equals its create count, and it is created at
most once), so no open handle remains afterwards: the `finally` clause
runs `_cleanup_browser` on exactly the attributes that were set.  If a
close does raise, the single `try/except` around the four closes
swallows it and the remaining resources leak. -/
theorem teardown_balanced (e : SessionEnv) (r : BRes)
    (hc : ∀ x, e.closeRaises x = false) :
    countEv (.close r) (execute_automation_events e)
      = countEv (.create r) (execute_automation_events e) ∧
    countEv (.create r) (execute_automation_events e) ≤ 1 := by
  obtain ⟨i, p, st, cr⟩ := e
  replace hc : ∀ x, cr x = false := hc
  have hst : step_loop_events st = [] := by
    clear hc
    induction st with
    | nil => rfl
    | cons _ _ ih => exact ih
  cases i <;> cases p <;>
    simp only [execute_automation_events, init_browser, cleanup_browser, closeSeq, hst, hc,
      Bool.false_eq_true, if_true, if_false, List.append_nil, List.nil_append] <;>
    cases r <;> decide

/-- Witness for C1 (amended): a clean run in which no close raises —
every resource is created once and closed once. -/
theorem teardown_balanced_witness :
    countEv (.close .browser) (execute_automation_events envCleanRun)
      = countEv (.create .browser) (execute_automation_events envCleanRun) ∧
    countEv (.create .browser) (execute_automation_events envCleanRun) ≤ 1 :=
  teardown_balanced envCleanRun .browser (fun _ => rfl)

/-- Claim C8: search-phrase extraction is deterministic — two calls of
`_extract_search_query` on the same instruction string return the
identical phrase, because the extractor embeds as a pure function of
its input. -/
theorem extract_deterministic (s : String) :
    extract_search_query s = extract_search_query s := rfl

/-- Claim C9 (evidence of the code bug): on the flagship instruction
the extractor does NOT return "thailand itinerary 10 days" — the
delimiter alternation `(?:,|and|then|\.|play|click|$)` has no word
boundaries, so the lazy capture stops at the "and" inside "thailand"
and the code returns "thail".  The site detection still selects the
YouTube branch, whose first step navigates to https://youtube.com. -/
theorem extract_thailand_truncated :
    extract_search_query "Go to YouTube and search for thailand itinerary 10 days"
      = "thail" ∧
    (create_pattern_plan "Go to YouTube and search for thailand itinerary 10 days" "").head?.map
        (fun s => (s.action, s.target))
      = some (ActionType.navigate, some "https://youtube.com") :=
  ⟨rfl, rfl⟩

/-- Claim C5: if the lowered instruction contains "youtube" the pattern
plan starts with a Navigate to https://youtube.com; if it contains
"google" but not "youtube", with a Navigate to https://google.com; if
it contains "amazon" but neither of the others, with a Navigate to
https://amazon.com — the source checks the keywords in exactly that
priority order. -/
theorem pattern_plan_first_nav (instr url : String) :
    (strIn "youtube" (pyLower instr) = true →
      (create_pattern_plan instr url).head?.map (fun s => (s.action, s.target))
        = some (ActionType.navigate, some "https://youtube.com")) ∧
    (strIn "youtube" (pyLower instr) = false →
     strIn "google" (pyLower instr) = true →
      (create_pattern_plan instr url).head?.map (fun s => (s.action, s.target))
        = some (ActionType.navigate, some "https://google.com")) ∧
    (strIn "youtube" (pyLower instr) = false →
     strIn "google" (pyLower instr) = false →
     strIn "amazon" (pyLower instr) = true →
      (create_pattern_plan instr url).head?.map (fun s => (s.action, s.target))
        = some (ActionType.navigate, some "https://amazon.com")) := by
  constructor
  · intro h1
    simp [create_pattern_plan, h1]
  constructor
  · intro h1 h2
    simp [create_pattern_plan, h1, h2]
  · intro h1 h2 h3
    simp [create_pattern_plan, h1, h2, h3]

/-- Witness for C5: each of the three keyword branches exercised on a
concrete instruction. -/
theorem pattern_plan_first_nav_witness :
    (create_pattern_plan "go to youtube" "").head?.map (fun s => (s.action, s.target))
      = some (ActionType.navigate, some "https://youtube.com") ∧
    (create_pattern_plan "go to google" "").head?.map (fun s => (s.action, s.target))
      = some (ActionType.navigate, some "https://google.com") ∧
    (create_pattern_plan "go to amazon" "").head?.map (fun s => (s.action, s.target))
      = some (ActionType.navigate, some "https://amazon.com") :=
  ⟨(pattern_plan_first_nav "go to youtube" "").1 (by decide),
   (pattern_plan_first_nav "go to google" "").2.1 (by decide) (by decide),
   (pattern_plan_first_nav "go to amazon" "").2.2 (by decide) (by decide) (by decide)⟩

/-- Counterexample to claim C6: with no site keyword and a non-empty
start URL the pattern plan is only Navigate + Wait — it contains no
Fill step, contradicting the claim that every fallback plan has one. -/
theorem pattern_plan_url_branch_no_fill :
    ¬ ((create_pattern_plan "hello" "example.com").any
        (fun s => s.action == ActionType.fill) = true) := by
  decide

/-- Claim C6 (amended): the pattern fallback always returns a non-empty
plan with at least one Navigate and one Wait step, and it also contains
a Fill step whenever the instruction mentions youtube/google/amazon or
no start URL is given; only the keyword-less branch with a start URL
omits the Fill.  In particular a `PlanningError` (no steps) is
unreachable through the fallback. -/
theorem pattern_plan_always_nav_wait (instr url : String) :
    create_pattern_plan instr url ≠ [] ∧
    (create_pattern_plan instr url).any (fun s => s.action == ActionType.navigate) = true ∧
    (create_pattern_plan instr url).any (fun s => s.action == ActionType.wait) = true ∧
    ((strIn "youtube" (pyLower instr) = true ∨ strIn "google" (pyLower instr) = true ∨
      strIn "amazon" (pyLower instr) = true ∨ url = "") →
      (create_pattern_plan instr url).any (fun s => s.action == ActionType.fill) = true) := by
  cases hy : strIn "youtube" (pyLower instr) with
  | true =>
    refine ⟨?_, ?_, ?_, fun _ => ?_⟩ <;> simp [create_pattern_plan, hy]
  | false =>
    cases hg : strIn "google" (pyLower instr) with
    | true =>
      refine ⟨?_, ?_, ?_, fun _ => ?_⟩ <;> simp [create_pattern_plan, hy, hg]
    | false =>
      cases ha : strIn "amazon" (pyLower instr) with
      | true =>
        refine ⟨?_, ?_, ?_, fun _ => ?_⟩ <;> simp [create_pattern_plan, hy, hg, ha]
      | false =>
        by_cases hu : url = ""
        · refine ⟨?_, ?_, ?_, fun _ => ?_⟩ <;> simp [create_pattern_plan, hy, hg, ha, hu]
        · refine ⟨?_, ?_, ?_, fun h => ?_⟩
          · simp [create_pattern_plan, hy, hg, ha, hu]
          · simp [create_pattern_plan, hy, hg, ha, hu]
          · simp [create_pattern_plan, hy, hg, ha, hu]
          · exfalso
            rcases h with h | h | h | h
            · exact absurd h (by simp [hy])
            · exact absurd h (by simp [hg])
            · exact absurd h (by simp [ha])
            · exact hu h

/-- Witness for C6 (amended): the keyword-less, URL-less branch indeed
carries a Fill step. -/
theorem pattern_plan_always_nav_wait_witness :
    (create_pattern_plan "hello" "").any (fun s => s.action == ActionType.fill) = true :=
  (pattern_plan_always_nav_wait "hello" "").2.2.2 (Or.inr (Or.inr (Or.inr rfl)))

/-! ### Lemmas about the candidate loops and attempts -/

/-- Unfolding of `fillCandidate` into an explicit cascade. -/
theorem fillCandidate_eq (o : PageOracle) (v sel : String) :
    fillCandidate o v sel =
      match o.wait_for_selector sel with
      | .error e => .error e
      | .ok _ =>
        match o.focus sel with
        | .error e => .error e
        | .ok _ =>
          match o.clear sel with
          | .error e => .error e
          | .ok _ =>
            match o.typeText sel v with
            | .error e => .error e
            | .ok _ =>
              match o.input_value sel with
              | .error e => .error e
              | .ok cur => .ok (!(cur == "") && strIn (pyLower v) (pyLower cur)) := by
  unfold fillCandidate
  cases o.wait_for_selector sel <;> cases o.focus sel <;> cases o.clear sel <;>
    cases o.typeText sel v <;> cases o.input_value sel <;> rfl

/-- A verified fill attempt exposes the read-back value: it is the
field's `input_value`, non-empty, and case-insensitively contains the
typed value. -/
theorem fillCandidate_ok_true {o : PageOracle} {v sel : String}
    (h : fillCandidate o v sel = Except.ok true) :
    ∃ cur, o.input_value sel = Except.ok cur ∧ cur ≠ "" ∧
      strIn (pyLower v) (pyLower cur) = true := by
  rw [fillCandidate_eq] at h
  split at h
  · exact absurd h (by simp)
  split at h
  · exact absurd h (by simp)
  split at h
  · exact absurd h (by simp)
  split at h
  · exact absurd h (by simp)
  split at h
  · exact absurd h (by simp)
  next cur heq =>
    have hb : (!(cur == "") && strIn (pyLower v) (pyLower cur)) = true := by
      exact Except.ok.inj h
    have hb' : (!(cur == "")) = true ∧ strIn (pyLower v) (pyLower cur) = true := by
      simpa using hb
    rcases hb' with ⟨hne, hin⟩
    refine ⟨cur, heq, ?_, hin⟩
    intro hcur
    rw [hcur] at hne
    simp at hne

/-- Unfolding of `clickCandidate` into an explicit cascade. -/
theorem clickCandidate_eq (o : PageOracle) (sel : String) :
    clickCandidate o sel =
      match o.wait_for_selector sel with
      | .error e => .error e
      | .ok _ =>
        match o.scroll_into_view sel with
        | .error e => .error e
        | .ok _ => o.clickSel sel := by
  unfold clickCandidate
  cases o.wait_for_selector sel <;> cases o.scroll_into_view sel <;> rfl

/-- If every candidate attempt raises, the click loop exhausts and
reports `false`. -/
theorem clickLoop_of_all_fail {o : PageOracle} : ∀ {l : List String},
    (∀ sel ∈ l, clickCandidate o sel = Except.error ()) → clickLoop o l = false := by
  intro l
  induction l with
  | nil => intro _; rfl
  | cons sel rest ih =>
    intro h
    have h1 := h sel (List.mem_cons_self sel rest)
    have h2 : clickLoop o rest = false := ih (fun x hx => h x (List.mem_cons_of_mem _ hx))
    simp [clickLoop, h1, tryUnit, h2]

/-- If no candidate attempt verifies, the fill loop exhausts and
reports `false`. -/
theorem fillLoop_of_all_fail {o : PageOracle} {v : String} : ∀ {l : List String},
    (∀ sel ∈ l, fillCandidate o v sel ≠ Except.ok true) → fillLoop o v l = false := by
  intro l
  induction l with
  | nil => intro _; rfl
  | cons sel rest ih =>
    intro h
    have h2 : fillLoop o v rest = false := ih (fun x hx => h x (List.mem_cons_of_mem _ hx))
    cases hfc : fillCandidate o v sel with
    | ok b =>
      cases b with
      | true => exact absurd hfc (h sel (List.mem_cons_self sel rest))
      | false => simp [fillLoop, hfc, h2]
    | error e => simp [fillLoop, hfc, h2]

/-- A successful fill loop names a verified candidate. -/
theorem fillLoop_exists {o : PageOracle} {v : String} : ∀ {l : List String},
    fillLoop o v l = true →
    ∃ sel, sel ∈ l ∧ fillCandidate o v sel = Except.ok true := by
  intro l
  induction l with
  | nil => intro h; exact absurd h (by simp [fillLoop])
  | cons sel rest ih =>
    intro h
    cases hfc : fillCandidate o v sel with
    | ok b =>
      cases b with
      | true => exact ⟨sel, List.mem_cons_self sel rest, hfc⟩
      | false =>
        rw [fillLoop, hfc] at h
        obtain ⟨x, hx, hfx⟩ := ih h
        exact ⟨x, List.mem_cons_of_mem _ hx, hfx⟩
    | error e =>
      rw [fillLoop, hfc] at h
      obtain ⟨x, hx, hfx⟩ := ih h
      exact ⟨x, List.mem_cons_of_mem _ hx, hfx⟩

/-- Claim C2: a Click or Fill step every one of whose candidate and
fallback attempts fails reports exactly its `optional` flag:
`_smart_click` and `_smart_fill` end with `return step.optional` after
exhausting all candidates. -/
theorem optional_flag_on_exhaustion (o : PageOracle) (step : AutomationStep) :
    (o.pressKey "Enter" = Except.error () →
     (∀ sel ∈ get_smart_selectors step.target "click",
        clickCandidate o sel = Except.error ()) →
     (∀ t, step.target = some t → o.get_by_text_click t = Except.error ()) →
     smart_click o step = step.optional) ∧
    (∀ v, step.value = some v → v ≠ "" →
     (∀ sel ∈ get_smart_selectors step.target "fill",
        fillCandidate o v sel ≠ Except.ok true) →
     smart_fill o step = step.optional) := by
  constructor
  · intro h1 h2 h3
    unfold smart_click smart_click_body
    cases ht : step.target with
    | none =>
      rw [ht] at h2
      simp [pyCatchB, clickLoop_of_all_fail h2]
    | some t =>
      rw [ht] at h2
      have htext := h3 t ht
      simp [pyCatchB, clickLoop_of_all_fail h2, h1, htext, tryUnit]
  · intro v hv hne h
    unfold smart_fill smart_fill_body
    rw [hv]
    simp [hne, pyCatchB, fillLoop_of_all_fail h]

/-- Witness for C2: on a page where every primitive raises, the
optional click and fill demo steps report success `true` (their
`optional` flag). -/
theorem optional_flag_on_exhaustion_witness :
    smart_click oracleFail stepClickDemo = true ∧
    smart_fill oracleFail stepFillDemoOpt = true :=
  ⟨(optional_flag_on_exhaustion oracleFail stepClickDemo).1 rfl
      (fun _ _ => rfl) (fun _ _ => rfl),
   (optional_flag_on_exhaustion oracleFail stepFillDemoOpt).2 "pizza" rfl
      (by decide) (fun sel _ h => by simp [fillCandidate_eq, oracleFail] at h)⟩

/-- Claim C3: a mandatory Fill step reports success only if the typed
field's read-back content contains the value as a case-insensitive
substring; against a field that silently rejects input (read-back
never contains the value) it reports failure. -/
theorem fill_verification (o : PageOracle) (step : AutomationStep) (v : String)
    (hv : step.value = some v) (hopt : step.optional = false) :
    (smart_fill o step = true →
      ∃ sel, sel ∈ get_smart_selectors step.target "fill" ∧
        ∃ cur, o.input_value sel = Except.ok cur ∧ cur ≠ "" ∧
          strIn (pyLower v) (pyLower cur) = true) ∧
    ((∀ sel cur, o.input_value sel = Except.ok cur →
        strIn (pyLower v) (pyLower cur) = false) →
      smart_fill o step = false) := by
  constructor
  · intro h
    unfold smart_fill smart_fill_body at h
    rw [hv] at h
    by_cases hne : v = ""
    · rw [hne] at h
      simp [pyCatchB] at h
    · simp only [hne, if_false, pyCatchB] at h
      by_cases hl : fillLoop o v (get_smart_selectors step.target "fill") = true
      · obtain ⟨sel, hmem, hok⟩ := fillLoop_exists hl
        obtain ⟨cur, hcur, hne2, hin⟩ := fillCandidate_ok_true hok
        exact ⟨sel, hmem, cur, hcur, hne2, hin⟩
      · rw [Bool.not_eq_true] at hl
        rw [hl] at h
        simp [hopt] at h
  · intro hrej
    unfold smart_fill smart_fill_body
    rw [hv]
    have hloop : fillLoop o v (get_smart_selectors step.target "fill") = false := by
      apply fillLoop_of_all_fail
      intro sel _ hok
      obtain ⟨cur, hcur, _, hin⟩ := fillCandidate_ok_true hok
      rw [hrej sel cur hcur] at hin
      exact Bool.noConfusion hin
    by_cases hne : v = ""
    · simp [hne, pyCatchB]
    · simp [hne, pyCatchB, hloop, hopt]

/-- Witness for C3: on the healthy page (read-back "pizza") the
mandatory fill of "pizza" succeeds and the theorem exhibits the
verified read-back; on the silently-rejecting page (read-back "nope")
it reports failure. -/
theorem fill_verification_witness :
    (∃ sel, sel ∈ get_smart_selectors stepFillDemo.target "fill" ∧
      ∃ cur, oracleOk.input_value sel = Except.ok cur ∧ cur ≠ "" ∧
        strIn (pyLower "pizza") (pyLower cur) = true) ∧
    smart_fill oracleReject stepFillDemo = false :=
  ⟨(fill_verification oracleOk stepFillDemo "pizza" rfl rfl).1 (by decide),
   (fill_verification oracleReject stepFillDemo "pizza" rfl rfl).2
     (by
       intro sel cur h
       have : cur = "nope" := (Except.ok.inj h).symm
       rw [this]
       decide)⟩

/-- Claim C4: `_execute_step` is total — for every oracle of raising
primitives and every step its body returns `Except.ok` of a boolean
(no exception escapes), and a failed candidate attempt merely advances
the click/fill loop to the next candidate. -/
theorem execute_step_total (o : PageOracle) (step : AutomationStep) :
    (∃ b : Bool, execute_step_exc o step = Except.ok b ∧ execute_step o step = b) ∧
    (∀ sel rest, clickCandidate o sel = Except.error () →
        clickLoop o (sel :: rest) = clickLoop o rest) ∧
    (∀ v sel rest, fillCandidate o v sel ≠ Except.ok true →
        fillLoop o v (sel :: rest) = fillLoop o v rest) := by
  refine ⟨?_, ?_, ?_⟩
  · unfold execute_step execute_step_exc pyCatchB
    cases step.action <;> exact ⟨_, rfl, rfl⟩
  · intro sel rest h
    simp [clickLoop, h, tryUnit]
  · intro v sel rest h
    cases hfc : fillCandidate o v sel with
    | ok b =>
      cases b with
      | true => exact absurd hfc h
      | false => simp [fillLoop, hfc]
    | error e => simp [fillLoop, hfc]

/-- Witness for C4: on the all-raising page the demo click step still
yields a boolean, and failing candidates advance both loops. -/
theorem execute_step_total_witness :
    (∃ b : Bool, execute_step_exc oracleFail stepClickDemo = Except.ok b ∧
        execute_step oracleFail stepClickDemo = b) ∧
    clickLoop oracleFail ["button"] = clickLoop oracleFail [] ∧
    fillLoop oracleFail "pizza" ["input"] = fillLoop oracleFail "pizza" [] :=
  ⟨(execute_step_total oracleFail stepClickDemo).1,
   (execute_step_total oracleFail stepClickDemo).2.1 "button" []
     (by simp [clickCandidate_eq, oracleFail]),
   (execute_step_total oracleFail stepClickDemo).2.2 "pizza" "input" []
     (by simp [fillCandidate_eq, oracleFail])⟩

/-- Claim C7: `_navigate` prepends "https://" when the target lacks an
"http" prefix, and succeeds exactly when navigation raises no
exception, returns a non-null response, and that response's status is
strictly below 400. -/
theorem navigate_spec (o : PageOracle) (step : AutomationStep) (u : String)
    (h : step.target = some u) :
    (u.startsWith "http" = false → normUrl u = "https://" ++ u) ∧
    (u.startsWith "http" = true → normUrl u = u) ∧
    (navigate o step = true ↔
      ∃ st, o.goto (normUrl u) = Except.ok (some st) ∧ st < 400) := by
  refine ⟨fun hs => by simp [normUrl, hs], fun hs => by simp [normUrl, hs], ?_⟩
  unfold navigate navigate_body
  rw [h]
  cases hg : o.goto (normUrl u) with
  | error e =>
    simp [pyCatchB, hg]
  | ok resp =>
    cases resp with
    | none => simp [pyCatchB, hg]
    | some status =>
      by_cases hlt : status < 400
      · simp [pyCatchB, hg, hlt]
      · simp [pyCatchB, hg, hlt]

/-- Witness for C7: navigating to the scheme-less "example.com" on the
healthy page (status 200) succeeds. -/
theorem navigate_spec_witness :
    navigate oracleOk stepNavDemo = true :=
  (navigate_spec oracleOk stepNavDemo "example.com" rfl).2.2.mpr
    ⟨200, rfl, by decide⟩

/-! ### Lemmas about `pySplit` and `joinSp` -/

/-- Every word of a whitespace split is non-empty and whitespace-free
(generalized over the accumulator). -/
theorem pySplitAux_mem : ∀ (cs cur w : List Char),
    (∀ c ∈ cur, pyIsSpace c = false) → w ∈ pySplitAux cur cs →
    w ≠ [] ∧ ∀ c ∈ w, pyIsSpace c = false := by
  intro cs
  induction cs with
  | nil =>
    intro cur w hcur hw
    cases hc : cur.isEmpty with
    | true => simp [pySplitAux, hc] at hw
    | false =>
      simp [pySplitAux, hc] at hw
      subst hw
      have hcne : cur ≠ [] := by
        intro h0; subst h0; simp at hc
      refine ⟨by simpa using hcne, ?_⟩
      intro c hcm
      exact hcur c (List.mem_reverse.mp hcm)
  | cons c rest ih =>
    intro cur w hcur hw
    cases hc : pyIsSpace c with
    | true =>
      cases hcur0 : cur.isEmpty with
      | true =>
        simp [pySplitAux, hc, hcur0] at hw
        exact ih [] w (by simp) hw
      | false =>
        simp [pySplitAux, hc, hcur0] at hw
        rcases hw with hw | hw
        · subst hw
          have hcne : cur ≠ [] := by
            intro h0; subst h0; simp at hcur0
          refine ⟨by simpa using hcne, ?_⟩
          intro x hx
          exact hcur x (List.mem_reverse.mp hx)
        · exact ih [] w (by simp) hw
    | false =>
      simp [pySplitAux, hc] at hw
      refine ih (c :: cur) w ?_ hw
      intro x hx
      rcases List.mem_cons.mp hx with rfl | hx2
      · exact hc
      · exact hcur x hx2

/-- Every word of `pySplit` is non-empty and whitespace-free. -/
theorem pySplit_mem {cs w : List Char} (h : w ∈ pySplit cs) :
    w ≠ [] ∧ ∀ c ∈ w, pyIsSpace c = false :=
  pySplitAux_mem cs [] w (by simp) h

/-- Splitting past a whitespace-free chunk just accumulates it. -/
theorem pySplitAux_append : ∀ (w : List Char),
    (∀ c ∈ w, pyIsSpace c = false) →
    ∀ (cur cs : List Char),
      pySplitAux cur (w ++ cs) = pySplitAux (w.reverse ++ cur) cs := by
  intro w
  induction w with
  | nil => intro _ cur cs; simp
  | cons c w' ih =>
    intro hw cur cs
    have hc : pyIsSpace c = false := hw c (List.mem_cons_self _ _)
    have hw' : ∀ x ∈ w', pyIsSpace x = false :=
      fun x hx => hw x (List.mem_cons_of_mem _ hx)
    show pySplitAux cur (c :: (w' ++ cs)) = _
    simp only [pySplitAux, hc, Bool.false_eq_true, if_false]
    rw [ih hw' (c :: cur) cs]
    congr 1
    simp

/-- `pySplitAux` on an exhausted non-empty accumulator emits it. -/
theorem pySplitAux_nil_of_ne {cur : List Char} (h : cur ≠ []) :
    pySplitAux cur [] = [cur.reverse] := by
  cases cur with
  | nil => exact absurd rfl h
  | cons a t => rfl

/-- Splitting a single-space join of non-empty whitespace-free words
recovers exactly the word list: `' '.join(ws).split() == ws`. -/
theorem pySplit_joinSp : ∀ (ws : List (List Char)),
    (∀ w ∈ ws, w ≠ [] ∧ ∀ c ∈ w, pyIsSpace c = false) →
    pySplit (joinSp ws) = ws := by
  intro ws
  induction ws with
  | nil => intro _; rfl
  | cons w ws' ih =>
    intro h
    obtain ⟨hne, hsp⟩ := h w (List.mem_cons_self _ _)
    have hrev : w.reverse ≠ [] := by simpa using hne
    cases ws' with
    | nil =>
      show pySplit w = [w]
      have h1 : pySplit w = pySplitAux [] (w ++ []) := by
        rw [List.append_nil]; rfl
      rw [h1, pySplitAux_append w hsp [] [], List.append_nil,
        pySplitAux_nil_of_ne hrev, List.reverse_reverse]
    | cons w2 ws'' =>
      show pySplit (w ++ ' ' :: joinSp (w2 :: ws'')) = w :: w2 :: ws''
      have h1 : pySplit (w ++ ' ' :: joinSp (w2 :: ws''))
          = pySplitAux [] (w ++ ' ' :: joinSp (w2 :: ws'')) := rfl
      rw [h1, pySplitAux_append w hsp [] _, List.append_nil]
      have hstep : pySplitAux w.reverse (' ' :: joinSp (w2 :: ws''))
          = w.reverse.reverse :: pySplitAux [] (joinSp (w2 :: ws'')) := by
        cases hwrev : w.reverse with
        | nil => exact absurd hwrev hrev
        | cons a t => rfl
      rw [hstep, List.reverse_reverse]
      congr 1
      exact ih (fun x hx => h x (List.mem_cons_of_mem _ hx))

/-- The six stop words are lowercase-invariant. -/
theorem stop_lower_fixed {w : List Char} (h : memW w stopWords6 = true) :
    w.map Char.toLower = w := by
  simp [memW, stopWords6] at h
  rcases h with h | h | h | h | h | h <;> subst h <;> decide

/-- The six stop words all occur in the fallback's skip-word list. -/
theorem stop_mem_skip {w : List Char} (h : memW w stopWords6 = true) :
    memW w skipWords = true := by
  simp [memW, stopWords6] at h
  rcases h with h | h | h | h | h | h <;> subst h <;> decide

/-- Claim C10: no phrase returned by `_extract_search_query` contains
any of the words "and", "then", "play", "click", "first", "video": the
regex branch filters exactly these from the captured group, the
fallback filters a superset of them, and the default phrase "cats" is
none of them. -/
theorem extract_no_stop_words (s : String) (w : List Char)
    (hw : w ∈ pySplit (extract_search_query s).data) :
    memW w stopWords6 = false := by
  have hdata : (extract_search_query s).data = extractQ (s.data.map Char.toLower) := rfl
  rw [hdata] at hw
  cases hpat : tryPatterns (s.data.map Char.toLower) with
  | some g =>
    simp only [extractQ, hpat] at hw
    have hcond : ∀ x ∈ (pySplit (pyStrip g)).filter
        (fun x => !(memW (x.map Char.toLower) stopWords6)),
        x ≠ [] ∧ ∀ c ∈ x, pyIsSpace c = false :=
      fun x hx => pySplit_mem (List.mem_of_mem_filter hx)
    rw [pySplit_joinSp _ hcond] at hw
    have hfilter := (List.mem_filter.mp hw).2
    cases hmw : memW w stopWords6 with
    | false => rfl
    | true =>
      rw [stop_lower_fixed hmw, hmw] at hfilter
      simp at hfilter
  | none =>
    simp only [extractQ, hpat] at hw
    cases hempty : ((pySplit (s.data.map Char.toLower)).filter
        (fun x => !(memW x skipWords) && !(endsWithCom x))).isEmpty with
    | true =>
      rw [hempty] at hw
      simp only [if_true] at hw
      have hc : pySplit "cats".data = ["cats".data] := rfl
      rw [hc] at hw
      have hwc : w = "cats".data := by simpa using hw
      subst hwc
      decide
    | false =>
      rw [hempty] at hw
      simp only [Bool.false_eq_true, if_false] at hw
      have hcond : ∀ x ∈ ((pySplit (s.data.map Char.toLower)).filter
          (fun x => !(memW x skipWords) && !(endsWithCom x))).take 5,
          x ≠ [] ∧ ∀ c ∈ x, pyIsSpace c = false :=
        fun x hx => pySplit_mem (List.mem_of_mem_filter (List.take_subset _ _ hx))
      rw [pySplit_joinSp _ hcond] at hw
      have hq := (List.mem_filter.mp (List.take_subset _ _ hw)).2
      have hskip : memW w skipWords = false := by
        rcases Bool.and_eq_true _ _ ▸ hq with ⟨h1, _⟩
        simpa using h1
      cases hmw : memW w stopWords6 with
      | false => rfl
      | true =>
        rw [stop_mem_skip hmw] at hskip
        exact Bool.noConfusion hskip

/-- Witness for C10: the word "cats" of the extracted phrase for
"search for cats" is not a stop word. -/
theorem extract_no_stop_words_witness :
    ("cats".data ∈ pySplit (extract_search_query "search for cats").data) ∧
    memW "cats".data stopWords6 = false :=
  ⟨by decide, extract_no_stop_words "search for cats" "cats".data (by decide)⟩

end WebAuto
